import Mathlib

/-!
Shallow embedding of the `seify` BladeRF1 backend
(`src/impls/bladerf1.rs`) and proofs about the behaviour of its
operations.  Pure control flow of the backend is translated directly
from the Rust source; interactions with the external `libbladerf_rs`
driver crate are modelled by explicit oracle fields on the device
state, so that every driver call site's success/failure branch in the
Rust code is represented faithfully.
-/

/-- The error taxonomy of the abstraction layer.  Modelled from the spec:
`{NotFound, ValueError, NotSupported, BackendError(message)}`; the code names
the backend-error variant `Misc` and it carries the driver's message string. -/
inductive Error where
  | NotFound : Error
  | ValueError : Error
  | NotSupported : Error
  | Misc : String → Error
deriving DecidableEq, Repr

/-- Direction of a channel, `crate::Direction`. -/
inductive Direction where
  | Rx : Direction
  | Tx : Direction
deriving DecidableEq, Repr

/-- Modelled from the external crate `libbladerf_rs`: the hardware channel
enumeration, laid out as in libbladerf (`RX(n) = 2n`, `TX(n) = 2n+1`). -/
inductive Channel where
  | Rx0 : Channel
  | Tx0 : Channel
  | Rx1 : Channel
  | Tx1 : Channel
deriving DecidableEq, Repr

/-- Modelled from the external crate `libbladerf_rs`: `Channel: TryFrom<u8>`,
failing (`Err`) on any byte that is not one of the enumeration's values.
`none` is the `Err` case, on which the backend's `.unwrap()` panics. -/
def Channel.tryFrom : Nat → Option Channel
  | 0 => some Channel.Rx0
  | 1 => some Channel.Tx0
  | 2 => some Channel.Rx1
  | 3 => some Channel.Tx1
  | _ => none

/-- Modelled from the external crate `libbladerf_rs`: gain-control modes.
The backend only ever constructs `Default` (AGC on) and `Mgc` (manual). -/
inductive GainMode where
  | Default : GainMode
  | Mgc : GainMode
deriving DecidableEq, Repr

/-- Modelled from the external crate `libbladerf_rs`: the expansion boards of
the BladeRF1 (`bladerf_xb`: none, XB-100, XB-200, XB-300). -/
inductive ExpansionBoard where
  | XbNone : ExpansionBoard
  | Xb100 : ExpansionBoard
  | Xb200 : ExpansionBoard
  | Xb300 : ExpansionBoard
deriving DecidableEq, Repr

/-- Rust's `usize as u8` truncating cast. -/
def usizeAsU8 (n : Nat) : Nat := n % 256

/-- Rust's `t as u64` cast of an `i64`: two's-complement reinterpretation,
i.e. reduction modulo `2^64`. -/
def i64AsU64 (t : Int) : Nat := (t % (2 : Int) ^ 64).toNat

/-- Rust's saturating `f64 as i8` cast, on the integer model of `f64`. -/
def f64AsI8 (x : Int) : Int := max (-128) (min x 127)

/-- The inner `libbladerf_rs::bladerf1::BladeRf1` device handle.  The fields
hold the observable hardware state the verified claims are about, plus
boolean oracles fixing the outcome of each fallible driver call the backend
makes (the Rust code branches on `Result`s returned by the driver; the
oracles pick the branch). -/
structure BladeRf1 where
  /-- whether `get_gain_modes(ch)` returns `Ok` — the condition the backend's
  `supports_agc` queries. -/
  gainModesOk : Channel → Bool
  /-- current gain-control mode per channel (the AGC state). -/
  gainMode : Channel → GainMode
  /-- current gain in dB per channel. -/
  gainDb : Channel → Int
  /-- current tuned frequency per channel (a `u64`, in Hz). -/
  freq : Channel → Nat
  /-- minimum of the device's frequency range, as the `f64` the backend
  compares the request against (integer model). -/
  freqRangeMin : Int
  /-- which expansion board is currently attached. -/
  xbAttached : ExpansionBoard
  /-- oracle: `get_frequency_range()` fails. -/
  freqRangeQueryFails : Bool
  /-- oracle: `expansion_get_attached()` fails. -/
  xbGetFails : Bool
  /-- oracle: `expansion_attach(Xb200)` fails. -/
  xbAttachFails : Bool
  /-- oracle: the driver-level `set_frequency` (tune request) fails. -/
  tuneFails : Bool
  /-- oracle: `get_frequency(ch)` fails. -/
  getFreqFails : Bool
  /-- oracle: the driver-level `set_gain` fails. -/
  setGainFails : Bool
  /-- oracle: `BladeRf1RxStreamer::new` fails. -/
  rxStreamerNewFails : Bool
  /-- oracle: `BladeRf1TxStreamer::new` fails. -/
  txStreamerNewFails : Bool

/-- Modelled from the external crate `libbladerf_rs`:
`BladeRf1::set_gain_mode(ch, mode)` succeeds and records the mode exactly
when the channel supports gain modes (the same condition
`get_gain_modes(ch).is_ok()` that `supports_agc` queries); on failure the
device state is unchanged. -/
def BladeRf1.set_gain_mode (dev : BladeRf1) (ch : Channel) (mode : GainMode) :
    Except String BladeRf1 :=
  if dev.gainModesOk ch then
    Except.ok { dev with gainMode := fun c => if c = ch then mode else dev.gainMode c }
  else
    Except.error "gain mode not supported"

namespace BladeRf

/-- `BladeRf::supports_agc` (bladerf1.rs lines 274–279).  Result `none`
models a panic: `Channel::try_from(channel as u8).unwrap()` aborts when the
conversion fails.  Otherwise the call returns `Ok(get_gain_modes(ch).is_ok())`. -/
def supports_agc (dev : BladeRf1) (_direction : Direction) (channel : Nat) :
    Option (Except Error Bool) :=
  match Channel.tryFrom (usizeAsU8 channel) with
  | none => none
  | some ch => some (Except.ok (dev.gainModesOk ch))

/-- `BladeRf::enable_agc` (lines 281–291): picks `GainMode::Default` for
`agc = true`, `GainMode::Mgc` otherwise, and forwards to the driver's
`set_gain_mode`, mapping a driver error to `Error::Misc`.  `none` models the
panic of `Channel::try_from(channel as u8).unwrap()`.  On success the new
device state is returned; on failure no new state exists (the caller's state
is untouched). -/
def enable_agc (dev : BladeRf1) (_direction : Direction) (channel : Nat) (agc : Bool) :
    Option (Except Error BladeRf1) :=
  let gain_mode := if agc then GainMode.Default else GainMode.Mgc
  match Channel.tryFrom (usizeAsU8 channel) with
  | none => none
  | some ch =>
      match dev.set_gain_mode ch gain_mode with
      | Except.ok dev2 => some (Except.ok dev2)
      | Except.error e => some (Except.error (Error.Misc e))

/-- `BladeRf::frequency` (lines 377–382): `get_frequency(ch)? as f64`, driver
errors mapped to `Misc`; `none` models the `unwrap` panic on the channel
conversion. -/
def frequency (dev : BladeRf1) (_direction : Direction) (channel : Nat) :
    Option (Except Error Int) :=
  match Channel.tryFrom (usizeAsU8 channel) with
  | none => none
  | some ch =>
      if dev.getFreqFails then some (Except.error (Error.Misc "get_frequency failed"))
      else some (Except.ok (Int.ofNat (dev.freq ch)))

/-- `BladeRf::set_gain` (lines 303–310): forwards `GainDb { db: gain as i8 }`
to the driver, errors mapped to `Misc`; `none` models the `unwrap` panic on
the channel conversion. -/
def set_gain (dev : BladeRf1) (_direction : Direction) (channel : Nat) (gain : Int) :
    Option (Except Error BladeRf1) :=
  match Channel.tryFrom (usizeAsU8 channel) with
  | none => none
  | some ch =>
      if dev.setGainFails then some (Except.error (Error.Misc "set_gain failed"))
      else some (Except.ok
        { dev with gainDb := fun c => if c = ch then f64AsI8 gain else dev.gainDb c })

/-- `BladeRf::frequency_components` (lines 415–421): unconditionally
`Err(Error::ValueError)`. -/
def frequency_components (_dev : BladeRf1) (_direction : Direction) (_channel : Nat) :
    Except Error (List String) :=
  Except.error Error.ValueError

/-- `BladeRf::component_frequency_range` (lines 423–430): unconditionally
`Err(Error::ValueError)`. -/
def component_frequency_range (_dev : BladeRf1) (_direction : Direction) (_channel : Nat)
    (_name : String) : Except Error Unit :=
  Except.error Error.ValueError

/-- `BladeRf::component_frequency` (lines 432–439): unconditionally
`Err(Error::ValueError)`. -/
def component_frequency (_dev : BladeRf1) (_direction : Direction) (_channel : Nat)
    (_name : String) : Except Error Int :=
  Except.error Error.ValueError

/-- `BladeRf::set_component_frequency` (lines 441–449): unconditionally
`Err(Error::NotSupported)`. -/
def set_component_frequency (_dev : BladeRf1) (_direction : Direction) (_channel : Nat)
    (_name : String) (_frequency : Int) : Except Error Unit :=
  Except.error Error.NotSupported

end BladeRf

/-- Modelled from the external crate `libbladerf_rs`: the state of a
`BladeRf1RxStreamer` constructed by `BladeRf1RxStreamer::new(dev, buffer_size,
num_buffers, num_transfers)`. -/
structure BladeRf1RxStreamer where
  dev : BladeRf1
  buffer_size : Nat
  num_buffers : Option Nat
  num_transfers : Option Nat

/-- Modelled from the external crate `libbladerf_rs`: the state of a
`BladeRf1TxStreamer`. -/
structure BladeRf1TxStreamer where
  dev : BladeRf1
  buffer_size : Nat
  num_buffers : Option Nat
  num_transfers : Option Nat

/-- Modelled from the external crate `libbladerf_rs`:
`BladeRf1RxStreamer::new`, fallible; the outcome is fixed by the
`rxStreamerNewFails` oracle of the device handle. -/
def BladeRf1RxStreamer.new (dev : BladeRf1) (buffer_size : Nat)
    (num_buffers num_transfers : Option Nat) : Except String BladeRf1RxStreamer :=
  if dev.rxStreamerNewFails then Except.error "rx streamer construction failed"
  else Except.ok ⟨dev, buffer_size, num_buffers, num_transfers⟩

/-- Modelled from the external crate `libbladerf_rs`: `BladeRf1TxStreamer::new`. -/
def BladeRf1TxStreamer.new (dev : BladeRf1) (buffer_size : Nat)
    (num_buffers num_transfers : Option Nat) : Except String BladeRf1TxStreamer :=
  if dev.txStreamerNewFails then Except.error "tx streamer construction failed"
  else Except.ok ⟨dev, buffer_size, num_buffers, num_transfers⟩

/-- The seify-side `RxStreamer` wrapper (bladerf1.rs lines 108–110). -/
structure RxStreamer where
  streamer : BladeRf1RxStreamer

/-- The seify-side `TxStreamer` wrapper (lines 112–114). -/
structure TxStreamer where
  streamer : BladeRf1TxStreamer

namespace BladeRf

/-- The `else` branch of `BladeRf::rx_streamer` (lines 238–242): the
construction attempt `BladeRf1RxStreamer::new(self.inner.clone(), 65536,
Some(8), None)`, driver errors mapped to `Misc`. -/
def rx_streamer_construct (dev : BladeRf1) : Except Error RxStreamer :=
  match BladeRf1RxStreamer.new dev 65536 (some 8) none with
  | Except.error e => Except.error (Error.Misc e)
  | Except.ok s => Except.ok ⟨s⟩

/-- The `else` branch of `BladeRf::tx_streamer` (lines 250–254). -/
def tx_streamer_construct (dev : BladeRf1) : Except Error TxStreamer :=
  match BladeRf1TxStreamer.new dev 65536 (some 8) none with
  | Except.error e => Except.error (Error.Misc e)
  | Except.ok s => Except.ok ⟨s⟩

/-- `BladeRf::rx_streamer` (lines 233–243): `Err(ValueError)` unless the
requested channel slice is exactly `[0]`, else the construction attempt. -/
def rx_streamer (dev : BladeRf1) (channels : List Nat) : Except Error RxStreamer :=
  if channels ≠ [0] then Except.error Error.ValueError
  else rx_streamer_construct dev

/-- `BladeRf::tx_streamer` (lines 245–255). -/
def tx_streamer (dev : BladeRf1) (channels : List Nat) : Except Error TxStreamer :=
  if channels ≠ [0] then Except.error Error.ValueError
  else tx_streamer_construct dev

/-- The final tune step of `BladeRf::set_frequency` (lines 410–412):
`self.inner.set_frequency(Channel::try_from(channel as u8).unwrap(),
frequency as u64)`.  `none` models the `unwrap` panic; a driver failure
(oracle `tuneFails`) is mapped to `Misc` and leaves the state unchanged; on
success the channel's tuned frequency is updated.  The pair returns the
operation's result together with the device state after the call. -/
def set_frequency_tune (dev : BladeRf1) (channel : Nat) (frequency : Int) :
    Option (Except Error Unit × BladeRf1) :=
  match Channel.tryFrom (usizeAsU8 channel) with
  | none => none
  | some ch =>
      if dev.tuneFails then some (Except.error (Error.Misc "set_frequency failed"), dev)
      else some (Except.ok (),
        { dev with freq := fun c => if c = ch then i64AsU64 frequency else dev.freq c })

/-- The expansion-board block of `BladeRf::set_frequency` (lines 395–407): when
the requested frequency is strictly below the range minimum, query the
attached board (failure mapped to `ValueError`) and attach the XB200 when it
is not already attached; otherwise leave the state alone. -/
def set_frequency_xb (dev : BladeRf1) (frequency : Int) : Except Error BladeRf1 :=
  if frequency < dev.freqRangeMin then
    if dev.xbGetFails then Except.error Error.ValueError
    else if dev.xbAttached ≠ ExpansionBoard.Xb200 then
      if dev.xbAttachFails then Except.error (Error.Misc "expansion_attach failed")
      else Except.ok { dev with xbAttached := ExpansionBoard.Xb200 }
    else Except.ok dev
  else Except.ok dev

/-- `BladeRf::set_frequency` (lines 384–413): queries the frequency range,
runs the expansion-board block (`set_frequency_xb`), then issues the tune
request (`set_frequency_tune`).  Every error propagates immediately with the
state reached so far. -/
def set_frequency (dev : BladeRf1) (_direction : Direction) (channel : Nat)
    (frequency : Int) : Option (Except Error Unit × BladeRf1) :=
  if dev.freqRangeQueryFails then
    some (Except.error (Error.Misc "get_frequency_range failed"), dev)
  else
    match set_frequency_xb dev frequency with
    | Except.error e => some (Except.error e, dev)
    | Except.ok dev2 => set_frequency_tune dev2 channel frequency

end BladeRf

/-- Nanoseconds slept by `RxStreamer::activate_at`/`deactivate_at` and
`TxStreamer::activate_at`/`deactivate_at` (lines 121–128, 151–158):
`None` sleeps nothing, `Some(t)` sleeps `Duration::from_nanos(t as u64)`. -/
def activateSleepNs : Option Int → Nat
  | none => 0
  | some t => i64AsU64 t

/-- Wall-clock time (ns) at which `RxStreamer::activate_at`, called at time
`now`, issues the hardware-visible `activate()` transition: after sleeping
`activateSleepNs time_ns`. -/
def rxActivateIssueTime (now : Nat) (time_ns : Option Int) : Nat :=
  now + activateSleepNs time_ns

/-- Wall-clock time (ns) at which `TxStreamer::activate_at` issues the
transition (the code of lines 151–158 is identical to the Rx case). -/
def txActivateIssueTime (now : Nat) (time_ns : Option Int) : Nat :=
  now + activateSleepNs time_ns

/-- Modelled from the spec: the contracted issue time of a deferred
activation — for `Some(t)` the transition is deferred until wall/device time
reaches `t`, performed immediately when `t` is already past; for `None`
immediately. -/
def specDeferredIssueTime (now : Nat) : Option Int → Nat
  | none => now
  | some t => max now t.toNat


/-- Modelled from the spec: splitting a character string on a delimiter,
yielding the (possibly empty) segments between occurrences.  Strings are
modelled as lists of characters throughout the `Args` development. -/
def splitOnChar (c : Char) : List Char → List (List Char)
  | [] => [[]]
  | x :: xs =>
      let rest := splitOnChar c xs
      if x = c then [] :: rest
      else (x :: rest.headD []) :: rest.tail

/-- Modelled from the spec: trimming the whitespace around keys and values. -/
def trimChars (s : List Char) : List Char :=
  ((s.dropWhile (· = ' ')).reverse.dropWhile (· = ' ')).reverse

/-- Modelled from the spec: the typed ordered key-value store `Args`
(`crate::Args`, whose source is outside `src/`): an ordered mapping from
string key to string value, keys unique, insertion order preserved. -/
structure Args where
  items : List (List Char × List Char)
deriving DecidableEq, Repr

/-- Modelled from the spec: `Args::set` upserts, preserving the first-seen
position if the key already existed, else appending. -/
def Args.set (a : Args) (k v : List Char) : Args :=
  if a.items.any (fun p => p.1 = k) then
    ⟨a.items.map (fun p => if p.1 = k then (k, v) else p)⟩
  else
    ⟨a.items ++ [(k, v)]⟩

/-- Modelled from the spec: one `key=value` segment — exactly one `=`, key and
value trimmed; malformed segments fail with `ValueError`. -/
def Args.parseSegment (seg : List Char) : Except Error (List Char × List Char) :=
  match splitOnChar '=' seg with
  | [k, v] => Except.ok (trimChars k, trimChars v)
  | _ => Except.error Error.ValueError

/-- Modelled from the spec: folding the parsed segments into the store. -/
def Args.parseSegs : List (List Char) → Args → Except Error Args
  | [], acc => Except.ok acc
  | seg :: rest, acc =>
      match Args.parseSegment seg with
      | Except.error e => Except.error e
      | Except.ok (k, v) => Args.parseSegs rest (acc.set k v)

/-- Modelled from the spec: `Args::parse` of a comma-separated
`key=value, key=value` filter string. -/
def Args.parse (s : List Char) : Except Error Args :=
  Args.parseSegs (splitOnChar ',' s) ⟨[]⟩

/-- Whether a key is present in the store. -/
def Args.hasKey (a : Args) (k : List Char) : Bool :=
  a.items.any (fun p => p.1 = k)

/-- Modelled from the spec: the string-typed `Args::get` — `NotFound` if the
key is absent, else the stored value (string conversion never fails). -/
def Args.get (a : Args) (k : List Char) : Except Error (List Char) :=
  match a.items.find? (fun p => p.1 = k) with
  | some p => Except.ok p.2
  | none => Except.error Error.NotFound

/-- A decimal digit character. -/
def digitChar (d : Nat) : Char := Char.ofNat (48 + d)

/-- Decimal representation of a natural number, as the `Display`
formatting used by `format!` produces it. -/
def natChars (n : Nat) : List Char :=
  if _h : n < 10 then [digitChar n]
  else natChars (n / 10) ++ [digitChar (n % 10)]
decreasing_by exact Nat.div_lt_self (by omega) (by omega)

/-- One entry of `BladeRf1::list_bladerf1()`: the bus number and device
address of an enumerated unit (modelled from the external crate; both are
rendered in decimal by `probe`'s `format!`). -/
structure DevInfo where
  bus_id : Nat
  device_address : Nat
deriving DecidableEq, Repr

namespace BladeRf

/-- The filter string `format!("driver=bladerf, bus_id={}, address={}", ...)`
built by `BladeRf::probe` (lines 44–51) for one enumerated device. -/
def probeString (info : DevInfo) : List Char :=
  "driver=bladerf, bus_id=".toList ++ natChars info.bus_id
    ++ ", address=".toList ++ natChars info.device_address

/-- The loop of `BladeRf::probe`: parse each device's filter string into an
`Args` (`try_into`), propagating the first parse error. -/
def probeList : List DevInfo → Except Error (List Args)
  | [] => Except.ok []
  | info :: rest =>
      match Args.parse (probeString info) with
      | Except.error e => Except.error e
      | Except.ok a =>
          match probeList rest with
          | Except.error e => Except.error e
          | Except.ok as2 => Except.ok (a :: as2)

/-- `BladeRf::probe` (lines 36–54): enumeration failure is mapped to
`NotFound`; otherwise each enumerated device yields one parsed `Args`.
The enumeration outcome of `BladeRf1::list_bladerf1()` is the input. -/
def probe (enumResult : Except String (List DevInfo)) : Except Error (List Args) :=
  match enumResult with
  | Except.error _ => Except.error Error.NotFound
  | Except.ok infos => probeList infos

end BladeRf

/-- Parse a nonempty list of decimal digits. -/
def parseNatChars (s : List Char) : Option Nat :=
  if s = [] then none
  else if s.all (fun c => c.isDigit) then
    some (s.foldl (fun acc c => acc * 10 + (c.toNat - 48)) 0)
  else none

/-- Parse an optionally `-`-signed decimal integer within the `i32` range,
as `args.get::<i32>("fd")` does. -/
def parseI32Chars (s : List Char) : Option Int :=
  let signed : Option Int :=
    match s with
    | '-' :: rest => (parseNatChars rest).map (fun n => -(Int.ofNat n))
    | _ => (parseNatChars s).map Int.ofNat
  match signed with
  | none => none
  | some n => if -(2 ^ 31) ≤ n ∧ n < 2 ^ 31 then some n else none

/-- Modelled from the spec: the typed `Args::get::<i32>` — `NotFound` if the
key is absent, `ValueError` if the stored string does not parse as an `i32`. -/
def Args.getI32 (a : Args) (k : List Char) : Except Error Int :=
  match a.items.find? (fun p => p.1 = k) with
  | none => Except.error Error.NotFound
  | some p =>
      match parseI32Chars p.2 with
      | some n => Except.ok n
      | none => Except.error Error.ValueError

/-- The seify `BladeRf` device wrapper (bladerf1.rs lines 31–33). -/
structure BladeRf where
  inner : BladeRf1

/-- Oracles fixing the outcomes of the driver-level constructors used by
`BladeRf::open` (modelled from the external crate `libbladerf_rs`). -/
structure OpenWorld where
  /-- outcome of `BladeRf1::from_fd(fd)`. -/
  fromFd : Int → Except String BladeRf1
  /-- outcome of `BladeRf1::from_bus_addr(bus_id, address)`. -/
  fromBusAddr : List Char → List Char → Except String BladeRf1
  /-- outcome of `BladeRf1::from_first()`. -/
  fromFirst : Except String BladeRf1
  /-- outcome of `bladerf.initialize()`. -/
  initResult : Except String Unit

namespace BladeRf

/-- The `bladerf.initialize()?` step shared by every branch of
`BladeRf::open`; driver errors mapped to `Misc`. -/
def openInit (w : OpenWorld) (dev : BladeRf1) : Except Error BladeRf :=
  match w.initResult with
  | Except.error e => Except.error (Error.Misc e)
  | Except.ok _ => Except.ok ⟨dev⟩

/-- The `(Ok(bus_id), Ok(address))` arm of `BladeRf::open` (lines 74–81):
open by bus and address, then initialize. -/
def openFromBusAddr (w : OpenWorld) (bus_id address : List Char) : Except Error BladeRf :=
  match w.fromBusAddr bus_id address with
  | Except.error e => Except.error (Error.Misc e)
  | Except.ok dev => openInit w dev

/-- The `(Err(NotFound), Err(NotFound))` arm (lines 82–89): open the first
enumerated device, then initialize. -/
def openFirst (w : OpenWorld) : Except Error BladeRf :=
  match w.fromFirst with
  | Except.error e => Except.error (Error.Misc e)
  | Except.ok dev => openInit w dev

/-- The Linux `fd` branch of `BladeRf::open` (lines 61–69). -/
def openFromFd (w : OpenWorld) (fd : Int) : Except Error BladeRf :=
  match w.fromFd fd with
  | Except.error e => Except.error (Error.Misc e)
  | Except.ok dev => openInit w dev

/-- `BladeRf::open` (lines 57–99) on already-parsed `Args`, Linux
configuration: if `args.get::<i32>("fd")` succeeds, open from the file
descriptor; otherwise match on the `bus_id` and `address` lookups —
both `Ok` opens by bus/address, both `Err(NotFound)` opens the first
device, and every other combination is rejected with `ValueError`. -/
def openArgs (w : OpenWorld) (args : Args) : Except Error BladeRf :=
  match args.getI32 "fd".toList with
  | Except.ok fd => openFromFd w fd
  | Except.error _ =>
      match args.get "bus_id".toList, args.get "address".toList with
      | Except.ok bus_id, Except.ok address => openFromBusAddr w bus_id address
      | Except.error Error.NotFound, Except.error Error.NotFound => openFirst w
      | _, _ => Except.error Error.ValueError

end BladeRf

/-- The `Args` that `BladeRf::probe` produces for one enumerated device:
`driver=bladerf` plus the unit's bus number and device address. -/
def probeArgs (info : DevInfo) : Args :=
  ⟨[("driver".toList, "bladerf".toList),
    ("bus_id".toList, natChars info.bus_id),
    ("address".toList, natChars info.device_address)]⟩

/-- A concrete device state: no channel supports gain modes, no expansion
board attached, every driver call succeeds. -/
def devA : BladeRf1 where
  gainModesOk := fun _ => false
  gainMode := fun _ => GainMode.Mgc
  gainDb := fun _ => 0
  freq := fun _ => 2400000000
  freqRangeMin := 237500000
  xbAttached := ExpansionBoard.XbNone
  freqRangeQueryFails := false
  xbGetFails := false
  xbAttachFails := false
  tuneFails := false
  getFreqFails := false
  setGainFails := false
  rxStreamerNewFails := false
  txStreamerNewFails := false

/-- `devA` with a failing driver-level tune request. -/
def devB : BladeRf1 := { devA with tuneFails := true }

/-- `devB` after the XB200 has been attached. -/
def devBAttached : BladeRf1 := { devB with xbAttached := ExpansionBoard.Xb200 }

/-- A concrete `OpenWorld` in which no hardware is reachable. -/
def world0 : OpenWorld where
  fromFd := fun _ => Except.error "no device"
  fromBusAddr := fun _ _ => Except.error "no device"
  fromFirst := Except.error "no device"
  initResult := Except.ok ()

theorem splitOnChar_no_delim (c : Char) (xs : List Char) (h : ∀ a ∈ xs, a ≠ c) :
    splitOnChar c xs = [xs] := by
  induction xs with
  | nil => rfl
  | cons x xs ih =>
      have hx : x ≠ c := h x (by simp)
      have hrest : splitOnChar c xs = [xs] := ih (fun a ha => h a (by simp [ha]))
      simp [splitOnChar, hx, hrest]

theorem splitOnChar_append (c : Char) (xs ys : List Char) (h : ∀ a ∈ xs, a ≠ c) :
    splitOnChar c (xs ++ c :: ys) = xs :: splitOnChar c ys := by
  induction xs with
  | nil => simp [splitOnChar]
  | cons x xs ih =>
      have hx : x ≠ c := h x (by simp)
      have hrest := ih (fun a ha => h a (by simp [ha]))
      simp [splitOnChar, hx, hrest]

theorem natChars_digits (n : Nat) : ∀ ch ∈ natChars n, ∃ d, d < 10 ∧ ch = digitChar d := by
  induction n using Nat.strong_induction_on with
  | _ n ih =>
      intro ch hch
      rw [natChars] at hch
      split at hch
      · next h =>
          simp only [List.mem_singleton] at hch
          exact ⟨n, h, hch⟩
      · next h =>
          rw [List.mem_append] at hch
          cases hch with
          | inl h1 => exact ih (n / 10) (Nat.div_lt_self (by omega) (by omega)) ch h1
          | inr h2 =>
              simp only [List.mem_singleton] at h2
              exact ⟨n % 10, Nat.mod_lt _ (by omega), h2⟩

theorem digitChar_not_special (d : Nat) (hd : d < 10) :
    digitChar d ≠ ',' ∧ digitChar d ≠ '=' ∧ digitChar d ≠ ' ' := by
  interval_cases d <;> exact ⟨by decide, by decide, by decide⟩

theorem natChars_not_special (n : Nat) :
    ∀ ch ∈ natChars n, ch ≠ ',' ∧ ch ≠ '=' ∧ ch ≠ ' ' := by
  intro ch hch
  obtain ⟨d, hd, rfl⟩ := natChars_digits n ch hch
  exact digitChar_not_special d hd

theorem dropWhile_eq_self_of_false (p : Char → Bool) (s : List Char)
    (h : ∀ a ∈ s, p a = false) : s.dropWhile p = s := by
  cases s with
  | nil => rfl
  | cons x xs => simp [List.dropWhile_cons, h x (by simp)]

theorem trimChars_eq_self (s : List Char) (h : ∀ a ∈ s, a ≠ ' ') : trimChars s = s := by
  unfold trimChars
  rw [dropWhile_eq_self_of_false _ s (fun a ha => by simp [h a ha]),
    dropWhile_eq_self_of_false _ s.reverse
      (fun a ha => by simp [h a (List.mem_reverse.mp ha)]),
    List.reverse_reverse]

theorem parseSegment_bus (b : Nat) :
    Args.parseSegment (" bus_id=".toList ++ natChars b)
      = Except.ok ("bus_id".toList, natChars b) := by
  have hb := natChars_not_special b
  have e : " bus_id=".toList ++ natChars b = " bus_id".toList ++ '=' :: natChars b := rfl
  unfold Args.parseSegment
  rw [e, splitOnChar_append '=' " bus_id".toList (natChars b) (by decide),
    splitOnChar_no_delim '=' (natChars b) (fun a ha => (hb a ha).2.1)]
  show Except.ok (trimChars " bus_id".toList, trimChars (natChars b)) = _
  rw [trimChars_eq_self (natChars b) (fun a ha => (hb a ha).2.2),
    show trimChars " bus_id".toList = "bus_id".toList from by decide]

theorem parseSegment_addr (a : Nat) :
    Args.parseSegment (" address=".toList ++ natChars a)
      = Except.ok ("address".toList, natChars a) := by
  have ha := natChars_not_special a
  have e : " address=".toList ++ natChars a = " address".toList ++ '=' :: natChars a := rfl
  unfold Args.parseSegment
  rw [e, splitOnChar_append '=' " address".toList (natChars a) (by decide),
    splitOnChar_no_delim '=' (natChars a) (fun x hx => (ha x hx).2.1)]
  show Except.ok (trimChars " address".toList, trimChars (natChars a)) = _
  rw [trimChars_eq_self (natChars a) (fun x hx => (ha x hx).2.2),
    show trimChars " address".toList = "address".toList from by decide]

theorem splitOnChar_probeString (info : DevInfo) :
    splitOnChar ',' (BladeRf.probeString info)
      = ["driver=bladerf".toList,
         " bus_id=".toList ++ natChars info.bus_id,
         " address=".toList ++ natChars info.device_address] := by
  have hb := natChars_not_special info.bus_id
  have e1 : BladeRf.probeString info
      = "driver=bladerf".toList
          ++ ',' :: ((" bus_id=".toList ++ natChars info.bus_id)
          ++ ',' :: (" address=".toList ++ natChars info.device_address)) := by
    show "driver=bladerf, bus_id=".toList ++ natChars info.bus_id
        ++ ", address=".toList ++ natChars info.device_address = _
    simp [List.append_assoc]
  rw [e1, splitOnChar_append ',' "driver=bladerf".toList _ (by decide),
    splitOnChar_append ',' (" bus_id=".toList ++ natChars info.bus_id) _
      (by
        intro x hx
        rw [List.mem_append] at hx
        cases hx with
        | inl h1 => exact (by decide : ∀ y ∈ " bus_id=".toList, y ≠ ',') x h1
        | inr h2 => exact (hb x h2).1),
    splitOnChar_no_delim ',' _
      (by
        intro x hx
        rw [List.mem_append] at hx
        cases hx with
        | inl h1 => exact (by decide : ∀ y ∈ " address=".toList, y ≠ ',') x h1
        | inr h2 => exact (natChars_not_special info.device_address x h2).1)]

theorem parse_probeString (info : DevInfo) :
    Args.parse (BladeRf.probeString info) = Except.ok (probeArgs info) := by
  unfold Args.parse
  rw [splitOnChar_probeString]
  simp only [Args.parseSegs, parseSegment_bus, parseSegment_addr,
    show Args.parseSegment "driver=bladerf".toList
        = Except.ok ("driver".toList, "bladerf".toList) from rfl]
  rfl

theorem probeList_eq (infos : List DevInfo) :
    BladeRf.probeList infos = Except.ok (infos.map probeArgs) := by
  induction infos with
  | nil => rfl
  | cons i rest ih => simp [BladeRf.probeList, parse_probeString, ih]

theorem probeArgs_get (i : DevInfo) :
    (probeArgs i).get "driver".toList = Except.ok "bladerf".toList
    ∧ (probeArgs i).get "bus_id".toList = Except.ok (natChars i.bus_id)
    ∧ (probeArgs i).get "address".toList = Except.ok (natChars i.device_address) :=
  ⟨rfl, rfl, rfl⟩

/-- C8: Every `Args` returned by `BladeRf::probe` contains a `driver` key
identifying the bladerf backend plus bus and address identity keys holding
the bus number and device address of the corresponding enumerated device. -/
theorem C8_probe_identity_keys (infos : List DevInfo) (out : List Args)
    (h : BladeRf.probe (Except.ok infos) = Except.ok out) :
    out.length = infos.length
    ∧ List.Forall₂ (fun (a : Args) (i : DevInfo) =>
        a.get "driver".toList = Except.ok "bladerf".toList
        ∧ a.get "bus_id".toList = Except.ok (natChars i.bus_id)
        ∧ a.get "address".toList = Except.ok (natChars i.device_address)) out infos := by
  have hout : out = infos.map probeArgs := by
    have h2 : BladeRf.probe (Except.ok infos) = Except.ok (infos.map probeArgs) := by
      unfold BladeRf.probe
      exact probeList_eq infos
    rw [h2] at h
    exact (Except.ok.inj h).symm
  subst hout
  clear h
  refine ⟨List.length_map _ _, ?_⟩
  induction infos with
  | nil => exact List.Forall₂.nil
  | cons i rest ih => exact List.Forall₂.cons (probeArgs_get i) ih

/-- Witness for C8 at a concrete enumeration: one device on bus 1,
address 2. -/
theorem C8_probe_identity_keys_witness :
    [probeArgs (DevInfo.mk 1 2)].length = [DevInfo.mk 1 2].length
    ∧ List.Forall₂ (fun (a : Args) (i : DevInfo) =>
        a.get "driver".toList = Except.ok "bladerf".toList
        ∧ a.get "bus_id".toList = Except.ok (natChars i.bus_id)
        ∧ a.get "address".toList = Except.ok (natChars i.device_address))
        [probeArgs (DevInfo.mk 1 2)] [DevInfo.mk 1 2] :=
  C8_probe_identity_keys [DevInfo.mk 1 2] [probeArgs (DevInfo.mk 1 2)] (by
    show BladeRf.probeList [DevInfo.mk 1 2] = Except.ok [probeArgs (DevInfo.mk 1 2)]
    rw [probeList_eq]
    rfl)

theorem Args.find_eq_none_of_not_hasKey (a : Args) (k : List Char)
    (h : a.hasKey k = false) :
    a.items.find? (fun p => p.1 = k) = none := by
  rw [List.find?_eq_none]
  intro p hp
  unfold Args.hasKey at h
  intro hpk
  have : a.items.any (fun p => p.1 = k) = true :=
    List.any_eq_true.mpr ⟨p, hp, hpk⟩
  rw [h] at this
  cases this

theorem Args.get_notFound (a : Args) (k : List Char) (h : a.hasKey k = false) :
    a.get k = Except.error Error.NotFound := by
  unfold Args.get
  rw [Args.find_eq_none_of_not_hasKey a k h]

theorem Args.getI32_notFound (a : Args) (k : List Char) (h : a.hasKey k = false) :
    a.getI32 k = Except.error Error.NotFound := by
  unfold Args.getI32
  rw [Args.find_eq_none_of_not_hasKey a k h]

theorem Args.get_ok_of_hasKey (a : Args) (k : List Char) (h : a.hasKey k = true) :
    ∃ v, a.get k = Except.ok v := by
  unfold Args.hasKey at h
  obtain ⟨p, hp, hpk⟩ := List.any_eq_true.mp h
  cases hf : a.items.find? (fun p => p.1 = k) with
  | none =>
      exact absurd hpk (List.find?_eq_none.mp hf p hp)
  | some q =>
      exact ⟨q.2, by unfold Args.get; rw [hf]⟩

/-- C9: `BladeRf::open`, in the absence of an `fd` key, rejects argument bags
holding exactly one of `bus_id`/`address` with `ValueError`; with both keys
present it opens by bus and address (forwarding the stored values); with both
absent — both lookups returning `NotFound` — it opens the first enumerated
device. -/
theorem C9_open_key_combinations (w : OpenWorld) (args : Args)
    (hfd : args.hasKey "fd".toList = false) :
    (args.hasKey "bus_id".toList ≠ args.hasKey "address".toList →
        BladeRf.openArgs w args = Except.error Error.ValueError)
    ∧ (∀ b a2, args.get "bus_id".toList = Except.ok b →
        args.get "address".toList = Except.ok a2 →
        BladeRf.openArgs w args = BladeRf.openFromBusAddr w b a2)
    ∧ (args.hasKey "bus_id".toList = false → args.hasKey "address".toList = false →
        BladeRf.openArgs w args = BladeRf.openFirst w) := by
  have hfd2 : args.getI32 "fd".toList = Except.error Error.NotFound :=
    Args.getI32_notFound args _ hfd
  refine ⟨?_, ?_, ?_⟩
  · intro hne
    unfold BladeRf.openArgs
    rw [hfd2]
    cases hbus : args.hasKey "bus_id".toList with
    | true =>
        have haddr : args.hasKey "address".toList = false := by
          cases h2 : args.hasKey "address".toList with
          | true => rw [hbus, h2] at hne; exact absurd rfl hne
          | false => rfl
        obtain ⟨b, hb⟩ := Args.get_ok_of_hasKey args _ hbus
        rw [hb, Args.get_notFound args _ haddr]
    | false =>
        have haddr : args.hasKey "address".toList = true := by
          cases h2 : args.hasKey "address".toList with
          | true => rfl
          | false => rw [hbus, h2] at hne; exact absurd rfl hne
        obtain ⟨a2, ha2⟩ := Args.get_ok_of_hasKey args _ haddr
        rw [Args.get_notFound args _ hbus, ha2]
  · intro b a2 hb ha2
    unfold BladeRf.openArgs
    rw [hfd2, hb, ha2]
  · intro hbus haddr
    unfold BladeRf.openArgs
    rw [hfd2, Args.get_notFound args _ hbus, Args.get_notFound args _ haddr]

/-- Witness for C9: a bag holding only `bus_id=1` is rejected with
`ValueError`. -/
theorem C9_open_key_combinations_witness :
    BladeRf.openArgs world0 (Args.mk [("bus_id".toList, "1".toList)])
      = Except.error Error.ValueError :=
  (C9_open_key_combinations world0 (Args.mk [("bus_id".toList, "1".toList)])
      (by decide)).1 (by decide)

/-- C1: the channel-index handling of the BladeRf operations never produces
`ValueError`.  A channel whose low byte has no `Channel` value (e.g. 4) makes
`Channel::try_from(channel as u8).unwrap()` panic (`none`) in `supports_agc`,
`set_gain` and `frequency`; and for every channel index on which
`supports_agc` does return, the result is `Ok(_)`, never `Err(ValueError)`
— so an invalid channel index is never handled as `ValueError`. -/
theorem C1_invalid_channel_never_valueerror (dev : BladeRf1) (d : Direction) :
    BladeRf.supports_agc dev d 4 = none
    ∧ BladeRf.set_gain dev d 4 0 = none
    ∧ BladeRf.frequency dev d 4 = none
    ∧ ∀ channel r, BladeRf.supports_agc dev d channel = some r →
        r ≠ Except.error Error.ValueError := by
  refine ⟨rfl, rfl, rfl, ?_⟩
  intro channel r h
  unfold BladeRf.supports_agc at h
  cases hc : Channel.tryFrom (usizeAsU8 channel) with
  | none => rw [hc] at h; exact absurd h (by simp)
  | some ch =>
      rw [hc] at h
      have h2 : Except.ok (dev.gainModesOk ch) = r := Option.some.inj h
      rw [← h2]
      simp

/-- Witness for C1: on a concrete device, channel 4 panics and channel 1
(invalid: `num_channels` is 1) yields `Ok(false)`, not `ValueError`. -/
theorem C1_invalid_channel_never_valueerror_witness :
    BladeRf.supports_agc devA Direction.Rx 4 = none
    ∧ (Except.ok false : Except Error Bool) ≠ Except.error Error.ValueError :=
  ⟨(C1_invalid_channel_never_valueerror devA Direction.Rx).1,
   (C1_invalid_channel_never_valueerror devA Direction.Rx).2.2.2 1
     (Except.ok false) rfl⟩

/-- C2: `rx_streamer` and `tx_streamer` reject every channel slice other
than `[0]` with `ValueError` and construct nothing; for `[0]` they are the
construction attempt. -/
theorem C2_streamer_channel_check (dev : BladeRf1) (channels : List Nat)
    (h : channels ≠ [0]) :
    BladeRf.rx_streamer dev channels = Except.error Error.ValueError
    ∧ BladeRf.tx_streamer dev channels = Except.error Error.ValueError
    ∧ BladeRf.rx_streamer dev [0] = BladeRf.rx_streamer_construct dev
    ∧ BladeRf.tx_streamer dev [0] = BladeRf.tx_streamer_construct dev := by
  refine ⟨?_, ?_, ?_, ?_⟩ <;>
    simp [BladeRf.rx_streamer, BladeRf.tx_streamer, h]

/-- Witness for C2 at the concrete slice `[1]`. -/
theorem C2_streamer_channel_check_witness :
    BladeRf.rx_streamer devA [1] = Except.error Error.ValueError
    ∧ BladeRf.tx_streamer devA [1] = Except.error Error.ValueError
    ∧ BladeRf.rx_streamer devA [0] = BladeRf.rx_streamer_construct devA
    ∧ BladeRf.tx_streamer devA [0] = BladeRf.tx_streamer_construct devA :=
  C2_streamer_channel_check devA [1] (by decide)

/-- Counterexample to C3 as stated: on a device without gain-mode support,
`supports_agc` reports `false` and `enable_agc` fails — but with
`Error::Misc`, not `Error::NotSupported`. -/
theorem C3_counterexample :
    BladeRf.supports_agc devA Direction.Rx 0 = some (Except.ok false)
    ∧ BladeRf.enable_agc devA Direction.Rx 0 true
        = some (Except.error (Error.Misc "gain mode not supported"))
    ∧ Error.Misc "gain mode not supported" ≠ Error.NotSupported :=
  ⟨rfl, rfl, by simp⟩

/-- C3 (amended): when `supports_agc` reports `false`, `enable_agc` on the
same (direction, channel) fails with the backend `Misc` error — not
`NotSupported` — and, failing, returns no updated device state, so the AGC
state is unchanged. -/
theorem C3_enable_agc_fails_misc (dev : BladeRf1) (d : Direction) (channel : Nat)
    (ch : Channel) (agc : Bool)
    (hch : Channel.tryFrom (usizeAsU8 channel) = some ch)
    (hno : dev.gainModesOk ch = false) :
    BladeRf.supports_agc dev d channel = some (Except.ok false)
    ∧ BladeRf.enable_agc dev d channel agc
        = some (Except.error (Error.Misc "gain mode not supported")) := by
  constructor
  · unfold BladeRf.supports_agc
    rw [hch]
    simp [hno]
  · unfold BladeRf.enable_agc BladeRf1.set_gain_mode
    rw [hch]
    simp [hno]

/-- Witness for the amended C3 at channel 0 of a concrete device. -/
theorem C3_enable_agc_fails_misc_witness :
    BladeRf.supports_agc devA Direction.Rx 0 = some (Except.ok false)
    ∧ BladeRf.enable_agc devA Direction.Rx 0 true
        = some (Except.error (Error.Misc "gain mode not supported")) :=
  C3_enable_agc_fails_misc devA Direction.Rx 0 Channel.Rx0 true rfl rfl

/-- C4: `activate_at(Some(t))` sleeps for a *duration* of `t` nanoseconds
from the moment of the call instead of blocking until wall/device time
reaches `t`: called at time 5 with `Some(10)` it issues the transition at
time 15, where the contract requires time 10. -/
theorem C4_activate_wrong_deferral :
    rxActivateIssueTime 5 (some 10) = 15
    ∧ txActivateIssueTime 5 (some 10) = 15
    ∧ specDeferredIssueTime 5 (some 10) = 10
    ∧ (15 : Nat) ≠ 10 := by
  refine ⟨?_, ?_, ?_, by simp⟩ <;>
    simp [rxActivateIssueTime, txActivateIssueTime, specDeferredIssueTime,
      activateSleepNs, i64AsU64]

/-- C5: for a past (negative) time, `activate_at(Some(-1))` casts `-1` to
`u64` and sleeps `2^64 - 1` nanoseconds (about 584 years) — an effectively
unbounded wait — where the contract requires an immediate transition. -/
theorem C5_negative_time_unbounded_sleep :
    activateSleepNs (some (-1)) = 18446744073709551615
    ∧ rxActivateIssueTime 100 (some (-1)) = 18446744073709551715
    ∧ txActivateIssueTime 100 (some (-1)) = 18446744073709551715
    ∧ specDeferredIssueTime 100 (some (-1)) = 100 := by
  refine ⟨?_, ?_, ?_, ?_⟩ <;>
    simp [rxActivateIssueTime, txActivateIssueTime, specDeferredIssueTime,
      activateSleepNs, i64AsU64]

/-- Counterexample to C6 as stated: the four component-tuning operations do
not all return the same error kind — `frequency_components` returns
`ValueError` while `set_component_frequency` returns `NotSupported`. -/
theorem C6_counterexample :
    BladeRf.frequency_components devA Direction.Rx 0 = Except.error Error.ValueError
    ∧ BladeRf.set_component_frequency devA Direction.Rx 0 "RF" 1000000
        = Except.error Error.NotSupported
    ∧ Error.ValueError ≠ Error.NotSupported :=
  ⟨rfl, rfl, by simp⟩

/-- C6 (amended): all four component-tuning operations fail unconditionally
for every direction, channel and component name, each with a fixed kind from
{ValueError, NotSupported} — but not the *same* kind for all four:
`frequency_components`, `component_frequency` and `component_frequency_range`
return `ValueError` while `set_component_frequency` returns `NotSupported`. -/
theorem C6_component_ops_always_fail (dev : BladeRf1) (d : Direction) (channel : Nat)
    (name : String) (frequency : Int) :
    BladeRf.frequency_components dev d channel = Except.error Error.ValueError
    ∧ BladeRf.component_frequency_range dev d channel name
        = Except.error Error.ValueError
    ∧ BladeRf.component_frequency dev d channel name = Except.error Error.ValueError
    ∧ BladeRf.set_component_frequency dev d channel name frequency
        = Except.error Error.NotSupported :=
  ⟨rfl, rfl, rfl, rfl⟩

/-- Counterexample to C7 as stated: a request below the range minimum
auto-attaches the XB200; when the subsequent tune request fails, the call
returns an error yet the attached expansion board has changed. -/
theorem C7_counterexample :
    BladeRf.set_frequency devB Direction.Rx 0 100
      = some (Except.error (Error.Misc "set_frequency failed"), devBAttached)
    ∧ devB.xbAttached = ExpansionBoard.XbNone
    ∧ devBAttached.xbAttached = ExpansionBoard.Xb200 :=
  ⟨rfl, rfl, rfl⟩

/-- C7 (amended): when `set_frequency` returns an error, the device state is
unchanged — including the tuned frequency — except that the XB200 expansion
board may have been newly attached, which happens only for a request
strictly below the frequency-range minimum. -/
theorem C7_error_leaves_state (dev : BladeRf1) (d : Direction) (channel : Nat)
    (frequency : Int) (e : Error) (dev2 : BladeRf1)
    (h : BladeRf.set_frequency dev d channel frequency
        = some (Except.error e, dev2)) :
    dev2 = dev
    ∨ (frequency < dev.freqRangeMin ∧ dev.xbAttached ≠ ExpansionBoard.Xb200
        ∧ dev2 = { dev with xbAttached := ExpansionBoard.Xb200 }) := by
  unfold BladeRf.set_frequency at h
  split at h
  · exact Or.inl (congrArg Prod.snd (Option.some.inj h)).symm
  · have hxb : ∀ dev3 : BladeRf1, BladeRf.set_frequency_xb dev frequency = Except.ok dev3 →
        dev3 = dev ∨ (frequency < dev.freqRangeMin ∧ dev.xbAttached ≠ ExpansionBoard.Xb200
          ∧ dev3 = { dev with xbAttached := ExpansionBoard.Xb200 }) := by
      intro dev3 h3
      unfold BladeRf.set_frequency_xb at h3
      split at h3
      · split at h3
        · exact absurd h3 (by simp)
        · split at h3
          · split at h3
            · exact absurd h3 (by simp)
            · next hlt hget hne hatt =>
                exact Or.inr ⟨hlt, hne, (Except.ok.inj h3).symm⟩
          · exact Or.inl (Except.ok.inj h3).symm
      · exact Or.inl (Except.ok.inj h3).symm
    cases hstep : BladeRf.set_frequency_xb dev frequency with
    | error e2 =>
        rw [hstep] at h
        have h2 : (some (Except.error e2, dev) : Option (Except Error Unit × BladeRf1))
            = some (Except.error e, dev2) := h
        exact Or.inl (congrArg Prod.snd (Option.some.inj h2)).symm
    | ok dev3 =>
        rw [hstep] at h
        have h2 : BladeRf.set_frequency_tune dev3 channel frequency
            = some (Except.error e, dev2) := h
        unfold BladeRf.set_frequency_tune at h2
        cases hch : Channel.tryFrom (usizeAsU8 channel) with
        | none =>
            rw [hch] at h2
            exact absurd h2 (by simp)
        | some ch =>
            rw [hch] at h2
            have h3 : (if dev3.tuneFails = true then
                  some (Except.error (Error.Misc "set_frequency failed"), dev3)
                else
                  some (Except.ok (), { dev3 with
                    freq := fun c => if c = ch then i64AsU64 frequency else dev3.freq c })
                : Option (Except Error Unit × BladeRf1))
                = some (Except.error e, dev2) := h2
            split at h3
            · have hd : dev2 = dev3 := (congrArg Prod.snd (Option.some.inj h3)).symm
              rw [hd]
              exact hxb dev3 hstep
            · exact absurd (congrArg Prod.fst (Option.some.inj h3)) (by simp)

/-- Witness for the amended C7 at the concrete failing tune of `devB`. -/
theorem C7_error_leaves_state_witness :
    devBAttached = devB
    ∨ ((100 : Int) < devB.freqRangeMin ∧ devB.xbAttached ≠ ExpansionBoard.Xb200
        ∧ devBAttached = { devB with xbAttached := ExpansionBoard.Xb200 }) :=
  C7_error_leaves_state devB Direction.Rx 0 100
    (Error.Misc "set_frequency failed") devBAttached rfl

/-- C10: when the requested frequency is strictly below the range minimum,
`set_frequency` queries the attached expansion board and — when the XB200 is
not already attached — attaches it, and only then issues the tune request,
which therefore runs on the XB200-attached state; when the XB200 is already
attached no new attach happens; and for a frequency at or above the minimum
the tune request is issued on the unmodified state, with no expansion-board
query or attach at all. -/
theorem C10_xb200_auto_attach (dev : BladeRf1) (d : Direction) (channel : Nat)
    (frequency : Int) (hq : dev.freqRangeQueryFails = false) :
    (dev.freqRangeMin ≤ frequency →
        BladeRf.set_frequency dev d channel frequency
          = BladeRf.set_frequency_tune dev channel frequency)
    ∧ (frequency < dev.freqRangeMin → dev.xbGetFails = false →
        dev.xbAttached ≠ ExpansionBoard.Xb200 → dev.xbAttachFails = false →
        BladeRf.set_frequency dev d channel frequency
          = BladeRf.set_frequency_tune { dev with xbAttached := ExpansionBoard.Xb200 }
              channel frequency)
    ∧ (frequency < dev.freqRangeMin → dev.xbGetFails = false →
        dev.xbAttached = ExpansionBoard.Xb200 →
        BladeRf.set_frequency dev d channel frequency
          = BladeRf.set_frequency_tune dev channel frequency) := by
  refine ⟨?_, ?_, ?_⟩
  · intro hge
    unfold BladeRf.set_frequency BladeRf.set_frequency_xb
    rw [hq]
    simp [Int.not_lt.mpr hge]
  · intro hlt hget hne hatt
    unfold BladeRf.set_frequency BladeRf.set_frequency_xb
    rw [hq]
    simp [hlt, hget, hne, hatt]
  · intro hlt hget hyes
    unfold BladeRf.set_frequency BladeRf.set_frequency_xb
    rw [hq]
    simp [hlt, hget, hyes]

/-- Witness for C10: an in-range request on a concrete device goes straight
to the tune step. -/
theorem C10_xb200_auto_attach_witness :
    BladeRf.set_frequency devA Direction.Rx 0 237500000
      = BladeRf.set_frequency_tune devA 0 237500000 :=
  (C10_xb200_auto_attach devA Direction.Rx 0 237500000 rfl).1 (by decide)
